import Mathlib

/-!
Shallow embedding of `src/nvim_mcp/server.py` (nvim-mcp-server): an MCP bridge
that controls a remote Neovim instance over a socket via pynvim.

The remote Neovim process is external, so its behaviour is a parameter: a
`NvimSession` packages the four pynvim entry points the module uses
(`vim.api.exec2`, `vim.exec_lua`, `vim.lua.NvimMcpServer.<fn>`, `vim.command`)
as functions from the call data to an outcome.  Each tool handler in the
Python module is translated to a Lean function of the session; the remote
calls a handler performs are also returned as a trace, so that forwarding of
arguments is observable.
-/

namespace NvimMcp

/-- Msgpack-RPC values as seen from Python (the results pynvim hands back). -/
inductive NvimValue where
  | vnil
  | vbool (b : Bool)
  | vint (n : Int)
  | vstr (s : String)
  | vlist (xs : List NvimValue)
  | vdict (xs : List (String × NvimValue))

/-- The single-quote character used by Python repr of strings. -/
def pyQuote : String := String.singleton (Char.ofNat 39)

mutual

/-- Python `repr(...)` of a value (the rendering `str` falls back to for
non-string values; container elements are rendered with `repr`). -/
def pyRepr : NvimValue → String
  | .vnil => "None"
  | .vbool true => "True"
  | .vbool false => "False"
  | .vint n => toString n
  | .vstr s => pyQuote ++ s ++ pyQuote
  | .vlist xs => "[" ++ pyReprList xs ++ "]"
  | .vdict xs => "\x7b" ++ pyReprDict xs ++ "\x7d"

/-- Comma-separated `repr` of list elements. -/
def pyReprList : List NvimValue → String
  | [] => ""
  | [x] => pyRepr x
  | x :: y :: xs => pyRepr x ++ ", " ++ pyReprList (y :: xs)

/-- Comma-separated `repr` of dict entries (string keys). -/
def pyReprDict : List (String × NvimValue) → String
  | [] => ""
  | [(k, v)] => pyQuote ++ k ++ pyQuote ++ ": " ++ pyRepr v
  | (k, v) :: y :: xs =>
    pyQuote ++ k ++ pyQuote ++ ": " ++ pyRepr v ++ ", " ++ pyReprDict (y :: xs)

end

/-- Python `str(...)`: identity on strings, `repr` otherwise
(`str(None) = "None"`, `str(2) = "2"`, ...). -/
def pyStr : NvimValue → String
  | .vstr s => s
  | v => pyRepr v

/-- Python truthiness (`if result:`): `None`, `False`, `0`, `""`, `[]` and
empty dicts are falsy, everything else truthy. -/
def pyTruthy : NvimValue → Bool
  | .vnil => false
  | .vbool b => b
  | .vint n => n != 0
  | .vstr s => s != ""
  | .vlist [] => false
  | .vlist (_ :: _) => true
  | .vdict [] => false
  | .vdict (_ :: _) => true

/-- Python `result is None`. -/
def NvimValue.isNil : NvimValue → Bool
  | .vnil => true
  | _ => false

/-- A fault raised on the remote side, as the Python `except Exception as e`
block sees it: `typeName` is `type(e).__name__`, `message` is `str(e)`. -/
structure RemoteFault where
  typeName : String
  message : String
  deriving DecidableEq

/-- Outcome of one remote call: a value, or a raised fault. -/
inductive RpcOutcome where
  | ok (v : NvimValue)
  | fault (f : RemoteFault)

/-- The pynvim session object (`vim = attach("socket", path=NVIM)`), modelled
by the behaviour of the four entry points `server.py` uses.  `api_exec2 code`
is `vim.api.exec2(code, {"output": True})`; `exec_lua code` is
`vim.exec_lua(code)`; `luaFn fn args` is `vim.lua.NvimMcpServer.<fn>(*args)`;
`command cmd` is `vim.command(cmd)` (only the fault, if any, matters). -/
structure NvimSession where
  api_exec2 : String → RpcOutcome
  exec_lua : String → RpcOutcome
  luaFn : String → List NvimValue → RpcOutcome
  command : String → Option RemoteFault

/-- A record of one remote invocation a handler performed (target function
and the arguments forwarded to it). -/
structure RemoteCall where
  target : String
  args : List NvimValue

/-- What a tool handler returns to FastMCP: a string, a raw (structured)
value passed through, or an uncaught propagated fault. -/
inductive ToolResult where
  | rstr (s : String)
  | rraw (v : NvimValue)
  | rfault (f : RemoteFault)

/-- Whether a handler outcome is a plain string result. -/
def ToolResult.isStringResult : ToolResult → Bool
  | .rstr _ => true
  | _ => false

/-- The error string built by the handlers' `except` blocks:
`f"Error: \x7btype(e).__name__\x7d: \x7be\x7d"`. -/
def fmtError (f : RemoteFault) : String :=
  "Error: " ++ f.typeName ++ ": " ++ f.message

/-- `execute_vimscript` (server.py lines 28-39): `vim.api.exec2(code,
{"output": True})` inside try/except; on success returns `str(result)` if
`result` is truthy else `""`; on fault returns the `"Error: ..."` string. -/
def execute_vimscript (vim : NvimSession) (code : String) :
    ToolResult × List RemoteCall :=
  let call : RemoteCall :=
    ⟨"nvim_exec2", [.vstr code, .vdict [("output", .vbool true)]]⟩
  match vim.api_exec2 code with
  | .ok result => (.rstr (if pyTruthy result then pyStr result else ""), [call])
  | .fault e => (.rstr (fmtError e), [call])

/-- `execute_lua` (lines 42-59): `vim.exec_lua(code)` inside try/except; on
success returns `"nil"` if the result is `None` else `str(result)`; on fault
returns the `"Error: ..."` string. -/
def execute_lua (vim : NvimSession) (code : String) :
    ToolResult × List RemoteCall :=
  let call : RemoteCall := ⟨"nvim_exec_lua", [.vstr code]⟩
  match vim.exec_lua code with
  | .ok result => (.rstr (if result.isNil then "nil" else pyStr result), [call])
  | .fault e => (.rstr (fmtError e), [call])

/-- `get_diagnostics` (lines 62-75): `vim.lua.NvimMcpServer.get_diagnostics(
relative_path)` inside try/except; passes the remote value through on
success, returns the `"Error: ..."` string on fault.  The Python default of
`relative_path` is `""` (recorded in `get_diagnostics_params` below). -/
def get_diagnostics (vim : NvimSession) (relative_path : String) :
    ToolResult × List RemoteCall :=
  let call : RemoteCall :=
    ⟨"NvimMcpServer.get_diagnostics", [.vstr relative_path]⟩
  match vim.luaFn "get_diagnostics" [.vstr relative_path] with
  | .ok result => (.rraw result, [call])
  | .fault e => (.rstr (fmtError e), [call])

/-- Common shape of the remaining handlers (lines 78-201): a bare
`return vim.lua.NvimMcpServer.<fn>(...)` with no try/except, so a fault
propagates out of the handler uncaught. -/
def rawTool (vim : NvimSession) (fn : String) (args : List NvimValue) :
    ToolResult × List RemoteCall :=
  let call : RemoteCall := ⟨"NvimMcpServer." ++ fn, args⟩
  match vim.luaFn fn args with
  | .ok result => (.rraw result, [call])
  | .fault e => (.rfault e, [call])

/-- `get_symbols_overview` (lines 78-91); Python default: `depth = 0`. -/
def get_symbols_overview (vim : NvimSession) (relative_path : String)
    (depth : Int) : ToolResult × List RemoteCall :=
  rawTool vim "get_symbols_overview" [.vstr relative_path, .vint depth]

/-- `find_symbol` (lines 94-106); Python defaults: `relative_path = ""`,
`depth = 0`. -/
def find_symbol (vim : NvimSession) (name_path_pattern relative_path : String)
    (depth : Int) : ToolResult × List RemoteCall :=
  rawTool vim "find_symbol"
    [.vstr name_path_pattern, .vstr relative_path, .vint depth]

/-- `find_referencing_symbols` (lines 109-118). -/
def find_referencing_symbols (vim : NvimSession)
    (name_path relative_path : String) : ToolResult × List RemoteCall :=
  rawTool vim "find_referencing_symbols" [.vstr name_path, .vstr relative_path]

/-- `replace_symbol_body` (lines 121-131). -/
def replace_symbol_body (vim : NvimSession)
    (name_path relative_path body : String) : ToolResult × List RemoteCall :=
  rawTool vim "replace_symbol_body"
    [.vstr name_path, .vstr relative_path, .vstr body]

/-- `insert_after_symbol` (lines 134-144). -/
def insert_after_symbol (vim : NvimSession)
    (name_path relative_path body : String) : ToolResult × List RemoteCall :=
  rawTool vim "insert_after_symbol"
    [.vstr name_path, .vstr relative_path, .vstr body]

/-- `insert_before_symbol` (lines 147-157). -/
def insert_before_symbol (vim : NvimSession)
    (name_path relative_path body : String) : ToolResult × List RemoteCall :=
  rawTool vim "insert_before_symbol"
    [.vstr name_path, .vstr relative_path, .vstr body]

/-- `rename_symbol` (lines 160-170). -/
def rename_symbol (vim : NvimSession)
    (name_path relative_path new_name : String) : ToolResult × List RemoteCall :=
  rawTool vim "rename_symbol"
    [.vstr name_path, .vstr relative_path, .vstr new_name]

/-- `format` (lines 173-181). -/
def format (vim : NvimSession) (relative_path : String) :
    ToolResult × List RemoteCall :=
  rawTool vim "format" [.vstr relative_path]

/-- `restart_language_server` (lines 184-191). -/
def restart_language_server (vim : NvimSession) :
    ToolResult × List RemoteCall :=
  rawTool vim "restart_language_server" []

/-- `get_lsp_client_info` (lines 194-201). -/
def get_lsp_client_info (vim : NvimSession) : ToolResult × List RemoteCall :=
  rawTool vim "get_lsp_client_info" []

/-- One invocation request: the tool name and its (typed) arguments, one
constructor per `@mcp.tool()` registration in `server.py`. -/
inductive ToolCall where
  | executeVimscript (code : String)
  | executeLua (code : String)
  | getDiagnostics (relative_path : String)
  | getSymbolsOverview (relative_path : String) (depth : Int)
  | findSymbol (name_path_pattern relative_path : String) (depth : Int)
  | findReferencingSymbols (name_path relative_path : String)
  | replaceSymbolBody (name_path relative_path body : String)
  | insertAfterSymbol (name_path relative_path body : String)
  | insertBeforeSymbol (name_path relative_path body : String)
  | renameSymbol (name_path relative_path new_name : String)
  | formatFile (relative_path : String)
  | restartLanguageServer
  | getLspClientInfo

/-- The registry dispatch: an invocation request goes to the matching
handler, which talks to the shared session. -/
def dispatch (vim : NvimSession) : ToolCall → ToolResult × List RemoteCall
  | .executeVimscript code => execute_vimscript vim code
  | .executeLua code => execute_lua vim code
  | .getDiagnostics rp => get_diagnostics vim rp
  | .getSymbolsOverview rp d => get_symbols_overview vim rp d
  | .findSymbol pat rp d => find_symbol vim pat rp d
  | .findReferencingSymbols np rp => find_referencing_symbols vim np rp
  | .replaceSymbolBody np rp b => replace_symbol_body vim np rp b
  | .insertAfterSymbol np rp b => insert_after_symbol vim np rp b
  | .insertBeforeSymbol np rp b => insert_before_symbol vim np rp b
  | .renameSymbol np rp nn => rename_symbol vim np rp nn
  | .formatFile rp => format vim rp
  | .restartLanguageServer => restart_language_server vim
  | .getLspClientInfo => get_lsp_client_info vim

/-- Which handlers wrap their remote call in try/except (exactly
`execute_vimscript`, `execute_lua` and `get_diagnostics` do in the source;
the ten others are bare passthroughs). -/
def catchesFaults : ToolCall → Bool
  | .executeVimscript _ => true
  | .executeLua _ => true
  | .getDiagnostics _ => true
  | _ => false

/-- The module-level mutable state: the single `vim` global all handlers
read.  Nothing in the module ever rebinds it. -/
structure ServerState where
  vim : NvimSession

/-- Dispatch seen as a transformer of the module state: the handlers only
read `vim`, so the state comes back unchanged. -/
def dispatchSt (st : ServerState) (c : ToolCall) :
    (ToolResult × List RemoteCall) × ServerState :=
  (dispatch st.vim c, st)

/-- A session on which every remote call raises the given fault (e.g. the
socket died, or the bootstrap never loaded `NvimMcpServer`). -/
def faultySession (f : RemoteFault) : NvimSession :=
  ⟨fun _ => .fault f, fun _ => .fault f, fun _ _ => .fault f, fun _ => some f⟩

/-- A session on which every remote call succeeds with `nil`. -/
def happySession : NvimSession :=
  ⟨fun _ => .ok .vnil, fun _ => .ok .vnil, fun _ _ => .ok .vnil, fun _ => none⟩

/-! ### Tool parameter schemas

FastMCP derives each tool's parameter schema from the Python signature;
the defaults below are the literal defaults of `server.py`'s signatures. -/

/-- A parameter's default: required (no default), a string default, or an
integer default. -/
inductive PDefault where
  | required
  | dstr (s : String)
  | dint (n : Int)
  deriving DecidableEq

/-- One entry of a tool's parameter schema. -/
structure ParamSpec where
  pname : String
  dflt : PDefault
  deriving DecidableEq

/-- Signature of `get_diagnostics(relative_path: str = "")`. -/
def get_diagnostics_params : List ParamSpec :=
  [⟨"relative_path", .dstr ""⟩]

/-- Signature of `get_symbols_overview(relative_path: str, depth: int = 0)`. -/
def get_symbols_overview_params : List ParamSpec :=
  [⟨"relative_path", .required⟩, ⟨"depth", .dint 0⟩]

/-- Signature of `find_symbol(name_path_pattern: str,
relative_path: str = "", depth: int = 0)`. -/
def find_symbol_params : List ParamSpec :=
  [⟨"name_path_pattern", .required⟩, ⟨"relative_path", .dstr ""⟩,
   ⟨"depth", .dint 0⟩]

/-- Default declared for a named parameter, if the parameter exists. -/
def paramDefault (ps : List ParamSpec) (n : String) : Option PDefault :=
  (ps.find? (fun p => p.pname == n)).map (fun p => p.dflt)

/-! ### Process startup and CLI

`server.py` runs `NVIM = os.environ.get("NVIM")`, the emptiness check,
`vim = attach("socket", path=NVIM)` and `vim.command(f"luafile ...")` at
module import time; `main()` (argument parsing, version printing, serving)
runs only afterwards.  We record the side effects as an event trace. -/

/-- Strip trailing slashes (Python `head.rstrip("/")`). -/
def rstripSlash (cs : List Char) : List Char :=
  (cs.reverse.dropWhile (fun c => c == '/')).reverse

/-- POSIX `os.path.dirname`: everything before the final slash, with
trailing slashes stripped unless the head is all slashes. -/
def dirname (p : String) : String :=
  let head := (p.data.reverse.dropWhile (fun c => c != '/')).reverse
  if head.isEmpty then ⟨head⟩
  else if head.all (fun c => c == '/') then ⟨head⟩
  else ⟨rstripSlash head⟩

/-- `os.path.join a b` for a non-absolute `b`. -/
def pathJoin (a b : String) : String :=
  if a = "" then b
  else if a.data.getLast? = some '/' then a ++ b
  else a ++ "/" ++ b

/-- `PLUGIN_PATH` (lines 19-23): three `dirname`s up from the module's own
absolute path, then `plugin/nvim-mcp-server.lua`.  `fileAbs` stands for
`os.path.abspath(__file__)`. -/
def pluginPath (fileAbs : String) : String :=
  pathJoin (pathJoin (dirname (dirname (dirname fileAbs))) "plugin")
    "nvim-mcp-server.lua"

/-- The fixed version string printed by `main()` (line 213). -/
def VERSION_STRING : String := "nvim-mcp-server v0.1.0"

/-- The `RuntimeError` raised when `$NVIM` is unset or empty (line 10),
rendered as Python renders an uncaught exception type and message. -/
def nvimUnsetMsg : String :=
  "RuntimeError: $NVIM environment variable is not set"

/-- Observable startup side effects, in order of occurrence. -/
inductive Ev where
  | connectAttempt (path : String)
  | runCommand (cmd : String)
  | printVersion (s : String)
  | serveLoop
  deriving DecidableEq

/-- Result of importing the module (lines 1-25): either an uncaught
exception (fatal), or a ready module with its `vim` global. -/
inductive StartupResult where
  | fatal (msg : String) (events : List Ev)
  | ready (vim : NvimSession) (events : List Ev)

/-- Module import: read `$NVIM`; raise if it is unset or empty
(`if not NVIM`); connect (`attach("socket", path=NVIM)`, modelled by the
`connect` parameter); run the one-shot `luafile` bootstrap, whose fault —
there is no try/except around line 25 — escapes the import.  A failure of
`attach` itself is not modelled: `connect` is total. -/
def moduleImport (envNVIM : Option String) (connect : String → NvimSession)
    (fileAbs : String) : StartupResult :=
  match envNVIM with
  | none => .fatal nvimUnsetMsg []
  | some path =>
    if path = "" then .fatal nvimUnsetMsg []
    else
      let vim := connect path
      let cmd := "luafile " ++ pluginPath fileAbs
      match vim.command cmd with
      | some f =>
        .fatal (f.typeName ++ ": " ++ f.message)
          [.connectAttempt path, .runCommand cmd]
      | none => .ready vim [.connectAttempt path, .runCommand cmd]

/-- `argparse` with `parse_known_args`: the `-v`/`--version` store-true flag
is set when either spelling occurs; other arguments are ignored. -/
def versionRequested (argv : List String) : Bool :=
  argv.contains "-v" || argv.contains "--version"

/-- How a whole run ends. -/
inductive RunOutcome where
  | startupError (msg : String)
  | exited (code : Nat)
  | serving
  deriving DecidableEq

/-- The whole program: module import, then `main()` (lines 204-216) — parse
arguments, print the version and `sys.exit(0)` when requested, otherwise
enter `mcp.run(transport="stdio")`. -/
def runProgram (envNVIM : Option String) (connect : String → NvimSession)
    (fileAbs : String) (argv : List String) : RunOutcome × List Ev :=
  match moduleImport envNVIM connect fileAbs with
  | .fatal msg evs => (.startupError msg, evs)
  | .ready _vim evs =>
    if versionRequested argv then
      (.exited 0, evs ++ [.printVersion VERSION_STRING])
    else
      (.serving, evs ++ [.serveLoop])

/-- Bool test for `p` being a prefix of `s`, on the underlying char lists. -/
def strStarts (p s : String) : Bool :=
  p.data.isPrefixOf s.data

/-- A session whose only failure is the bootstrap `vim.command` call. -/
def bootFailSession : NvimSession :=
  ⟨fun _ => .ok .vnil, fun _ => .ok .vnil, fun _ _ => .ok .vnil,
   fun _ => some ⟨"NvimError", "E484: Cannot open file"⟩⟩

/-- A session with the Lua semantics the C5 examples assume: `return 1+1`
evaluates to `2`, a bare statement yields no value, anything else is a
syntax fault. -/
def luaDemoSession : NvimSession :=
  ⟨fun _ => .ok .vnil,
   fun code =>
     if code = "return 1+1" then .ok (.vint 2)
     else if code = "local x = 1" then .ok .vnil
     else .fault ⟨"NvimError", "E5107: Error while creating lua chunk"⟩,
   fun _ _ => .ok .vnil,
   fun _ => none⟩

/-! ### Helper lemmas -/

/-- A list is a prefix of itself followed by anything. -/
theorem isPrefixOf_append_self (l m : List Char) :
    l.isPrefixOf (l ++ m) = true := by
  simp [ List.isPrefixOf_iff_prefix]

/-- `isPrefixOf` fails as soon as the heads differ. -/
theorem isPrefixOf_cons_false {x y : Char} (xs ys : List Char)
    (h : (x == y) = false) : List.isPrefixOf (x :: xs) (y :: ys) = false := by
  simp [List.isPrefixOf, h]

/-- Prefix test succeeds on an append with the prefix itself. -/
theorem strStarts_append (p t : String) : strStarts p (p ++ t) = true := by
  unfold strStarts
  rw [String.data_append]
  exact isPrefixOf_append_self _ _

/-- Reassociated form of the handlers' error string. -/
theorem fmtError_eq (f : RemoteFault) :
    fmtError f = "Error: " ++ (f.typeName ++ (": " ++ f.message)) := by
  simp [fmtError, String.append_assoc]

/-- Every normalized error string starts with the `"Error: "` kind. -/
theorem fmtError_startsError (f : RemoteFault) :
    strStarts "Error: " (fmtError f) = true := by
  rw [fmtError_eq]
  exact strStarts_append _ _

/-- No normalized error string starts with an `"INTERNAL ERROR: "` kind. -/
theorem fmtError_not_internal (f : RemoteFault) :
    strStarts "INTERNAL ERROR: " (fmtError f) = false := by
  rw [fmtError_eq]
  unfold strStarts
  rw [String.data_append]
  have hI : "INTERNAL ERROR: ".data = 'I' :: "NTERNAL ERROR: ".data := rfl
  have hE : ∀ l : List Char, "Error: ".data ++ l = 'E' :: ("rror: ".data ++ l) :=
    fun l => rfl
  rw [hI, hE]
  exact isPrefixOf_cons_false _ _ (by decide)

/-- A normalized error string is never empty. -/
theorem fmtError_ne_empty (f : RemoteFault) : "" ≠ fmtError f := by
  intro h
  have hp := fmtError_startsError f
  rw [← h] at hp
  exact absurd hp (by decide)

/-! ### Claim theorems -/

/-- Claim C1, counterexample: with a session whose remote calls all fault,
the `get_symbols_overview` handler (no try/except in the source) returns the
raw propagated fault, not a string — refuting "no raw fault propagates out
of any tool handler uncaught". -/
theorem symbols_overview_fault_propagates_raw :
    (dispatch (faultySession ⟨"NvimError", "boom"⟩)
        (.getSymbolsOverview "main.py" 0)).1
      = ToolResult.rfault ⟨"NvimError", "boom"⟩
    ∧ ((dispatch (faultySession ⟨"NvimError", "boom"⟩)
        (.getSymbolsOverview "main.py" 0)).1).isStringResult = false :=
  ⟨rfl, rfl⟩

/-- Claim C1 (amended): exactly the three handlers with a try/except
(`execute_vimscript`, `execute_lua`, `get_diagnostics`) normalize a session
fault into a string containing the fault's type tag and message; every other
registered tool propagates the fault raw out of its handler. -/
theorem fault_normalization_per_tool (f : RemoteFault) (c : ToolCall) :
    (catchesFaults c = true →
      (dispatch (faultySession f) c).1 = .rstr (fmtError f)
      ∧ ∃ u v : String, fmtError f = u ++ f.typeName ++ v ++ f.message)
    ∧ (catchesFaults c = false →
      (dispatch (faultySession f) c).1 = .rfault f) := by
  constructor
  · intro h
    refine ⟨?_, ⟨"Error: ", ": ", rfl⟩⟩
    cases c
    case executeVimscript code => rfl
    case executeLua code => rfl
    case getDiagnostics rp => rfl
    all_goals simp [catchesFaults] at h
  · intro h
    cases c
    case executeVimscript code => simp [catchesFaults] at h
    case executeLua code => simp [catchesFaults] at h
    case getDiagnostics rp => simp [catchesFaults] at h
    all_goals rfl

/-- Witness for `fault_normalization_per_tool` at a concrete tool and
fault. -/
theorem fault_normalization_per_tool_witness :
    catchesFaults (.executeLua "return x") = true
    ∧ (dispatch (faultySession ⟨"NvimError", "E5107: syntax error"⟩)
        (.executeLua "return x")).1
      = .rstr (fmtError ⟨"NvimError", "E5107: syntax error"⟩) :=
  ⟨rfl,
   ((fault_normalization_per_tool ⟨"NvimError", "E5107: syntax error"⟩
      (.executeLua "return x")).1 rfl).1⟩

/-- Claim C2, counterexample: when the remote extension call faults (for
example, the bootstrap never defined `NvimMcpServer`), `get_diagnostics`
returns a string beginning with `"Error: "`, not `"INTERNAL ERROR: "`. -/
theorem get_diagnostics_fault_not_internal_concrete :
    (dispatch (faultySession ⟨"NvimError", "attempt to index global"⟩)
        (.getDiagnostics "")).1
      = .rstr "Error: NvimError: attempt to index global"
    ∧ strStarts "INTERNAL ERROR: "
        "Error: NvimError: attempt to index global" = false :=
  ⟨rfl, by decide⟩

/-- Claim C2 (amended): for every invocation of `get_diagnostics` in which
the extension call raises a fault, the returned value is the normalized
string, which begins with `"Error: "` — the same kind used for direct script
execution — and never with `"INTERNAL ERROR: "`. -/
theorem get_diagnostics_fault_error_kind (vim : NvimSession)
    (f : RemoteFault) (rp : String)
    (h : vim.luaFn "get_diagnostics" [.vstr rp] = .fault f) :
    (dispatch vim (.getDiagnostics rp)).1 = .rstr (fmtError f)
    ∧ strStarts "Error: " (fmtError f) = true
    ∧ strStarts "INTERNAL ERROR: " (fmtError f) = false := by
  refine ⟨?_, fmtError_startsError f, fmtError_not_internal f⟩
  simp [dispatch, get_diagnostics, h]

/-- Witness for `get_diagnostics_fault_error_kind` at a concrete session. -/
theorem get_diagnostics_fault_error_kind_witness :
    (dispatch (faultySession ⟨"NvimError", "module not found"⟩)
        (.getDiagnostics "")).1
      = .rstr (fmtError ⟨"NvimError", "module not found"⟩)
    ∧ strStarts "Error: " (fmtError ⟨"NvimError", "module not found"⟩) = true
    ∧ strStarts "INTERNAL ERROR: "
        (fmtError ⟨"NvimError", "module not found"⟩) = false :=
  get_diagnostics_fault_error_kind (faultySession ⟨"NvimError", "module not found"⟩)
    ⟨"NvimError", "module not found"⟩ "" rfl

/-- Claim C3, counterexample: with `$NVIM` set, running with `--version`
does print the fixed string and exit 0 — but the connection and the
bootstrap have already happened at module import, before the version check,
as the event order shows; and with `$NVIM` unset, `--version` dies with the
startup error instead of printing anything. -/
theorem version_flag_after_connect_concrete :
    runProgram (some "/tmp/nvim.sock") (fun _ => happySession)
        "/repo/src/nvim_mcp/server.py" ["--version"]
      = (.exited 0,
         [.connectAttempt "/tmp/nvim.sock",
          .runCommand "luafile /repo/plugin/nvim-mcp-server.lua",
          .printVersion "nvim-mcp-server v0.1.0"])
    ∧ runProgram none (fun _ => happySession)
        "/repo/src/nvim_mcp/server.py" ["--version"]
      = (.startupError nvimUnsetMsg, []) := by
  constructor <;> rfl

/-- Claim C3 (amended): when `$NVIM` is set non-empty, the bootstrap
succeeds and `-v`/`--version` is passed, the process prints the fixed
version string and exits with code 0 without entering the serve loop — but
only after the remote connection and bootstrap have already been performed
at module import time. -/
theorem version_flag_exits_zero_after_import (path : String)
    (connect : String → NvimSession) (fileAbs : String) (argv : List String)
    (hpath : path ≠ "")
    (hboot : (connect path).command ("luafile " ++ pluginPath fileAbs) = none)
    (hv : versionRequested argv = true) :
    runProgram (some path) connect fileAbs argv
      = (.exited 0,
         [.connectAttempt path,
          .runCommand ("luafile " ++ pluginPath fileAbs),
          .printVersion VERSION_STRING]) := by
  simp [runProgram, moduleImport, hpath, hboot, hv]

/-- Witness for `version_flag_exits_zero_after_import` at concrete inputs. -/
theorem version_flag_exits_zero_after_import_witness :
    runProgram (some "/tmp/nvim.sock") (fun _ => happySession)
        "/repo/src/nvim_mcp/server.py" ["--foo", "-v"]
      = (.exited 0,
         [.connectAttempt "/tmp/nvim.sock",
          .runCommand ("luafile " ++ pluginPath "/repo/src/nvim_mcp/server.py"),
          .printVersion VERSION_STRING]) :=
  version_flag_exits_zero_after_import "/tmp/nvim.sock" (fun _ => happySession)
    "/repo/src/nvim_mcp/server.py" ["--foo", "-v"] (by decide) rfl (by decide)

/-- Claim C4, counterexample: when the one-shot `luafile` bootstrap faults,
the exception escapes module import — the run ends in a startup error and
the serve loop never appears in the trace, refuting "the bridge still
proceeds to start the Transport Server". -/
theorem bootstrap_fault_fatal_concrete :
    runProgram (some "/tmp/nvim.sock") (fun _ => bootFailSession)
        "/repo/src/nvim_mcp/server.py" []
      = (.startupError "NvimError: E484: Cannot open file",
         [.connectAttempt "/tmp/nvim.sock",
          .runCommand "luafile /repo/plugin/nvim-mcp-server.lua"])
    ∧ (runProgram (some "/tmp/nvim.sock") (fun _ => bootFailSession)
        "/repo/src/nvim_mcp/server.py" []).2.contains .serveLoop = false := by
  constructor <;> rfl

/-- Claim C4 (amended): if the bootstrap `vim.command("luafile ...")` call
raises, the fault propagates out of module initialization (there is no
try/except around it): the process ends in a startup error and never reaches
the serve loop, regardless of the arguments. -/
theorem bootstrap_fault_is_fatal (path : String)
    (connect : String → NvimSession) (fileAbs : String) (argv : List String)
    (f : RemoteFault) (hpath : path ≠ "")
    (hboot : (connect path).command ("luafile " ++ pluginPath fileAbs)
      = some f) :
    runProgram (some path) connect fileAbs argv
      = (.startupError (f.typeName ++ ": " ++ f.message),
         [.connectAttempt path,
          .runCommand ("luafile " ++ pluginPath fileAbs)]) := by
  simp [runProgram, moduleImport, hpath, hboot]

/-- Witness for `bootstrap_fault_is_fatal`: even `--version` dies when the
bootstrap faults. -/
theorem bootstrap_fault_is_fatal_witness :
    runProgram (some "/tmp/nvim.sock") (fun _ => bootFailSession)
        "/repo/src/nvim_mcp/server.py" ["--version"]
      = (.startupError "NvimError: E484: Cannot open file",
         [.connectAttempt "/tmp/nvim.sock",
          .runCommand
            ("luafile " ++ pluginPath "/repo/src/nvim_mcp/server.py")]) :=
  bootstrap_fault_is_fatal "/tmp/nvim.sock" (fun _ => bootFailSession)
    "/repo/src/nvim_mcp/server.py" ["--version"]
    ⟨"NvimError", "E484: Cannot open file"⟩ (by decide) rfl

/-- Claim C5: for the `execute_lua` tool — a remote call yielding no value
(Lua `nil`, Python `None`) returns exactly `"nil"`; when the remote
evaluates `return 1+1` to `2`, the tool returns `"2"`; when the remote
raises (for example, on invalid syntax), the tool returns the normalized
string, which begins with `"Error: "`. -/
theorem execute_lua_result_contract (vim : NvimSession) :
    (∀ code, vim.exec_lua code = .ok .vnil →
      (dispatch vim (.executeLua code)).1 = .rstr "nil")
    ∧ (vim.exec_lua "return 1+1" = .ok (.vint 2) →
      (dispatch vim (.executeLua "return 1+1")).1 = .rstr "2")
    ∧ (∀ code f, vim.exec_lua code = .fault f →
      (dispatch vim (.executeLua code)).1 = .rstr (fmtError f)
      ∧ strStarts "Error: " (fmtError f) = true) := by
  refine ⟨fun code h => ?_, fun h => ?_,
    fun code f h => ⟨?_, fmtError_startsError f⟩⟩
  · simp [dispatch, execute_lua, h, NvimValue.isNil]
  · simp [dispatch, execute_lua, h, NvimValue.isNil, pyStr, pyRepr]
    decide
  · simp [dispatch, execute_lua, h]

/-- Witness for `execute_lua_result_contract` on a session with the expected
remote Lua semantics. -/
theorem execute_lua_result_contract_witness :
    (dispatch luaDemoSession (.executeLua "local x = 1")).1 = .rstr "nil"
    ∧ (dispatch luaDemoSession (.executeLua "return 1+1")).1 = .rstr "2"
    ∧ ((dispatch luaDemoSession (.executeLua "return ((")).1
        = .rstr (fmtError ⟨"NvimError", "E5107: Error while creating lua chunk"⟩)
      ∧ strStarts "Error: "
          (fmtError ⟨"NvimError", "E5107: Error while creating lua chunk"⟩)
        = true) :=
  ⟨(execute_lua_result_contract luaDemoSession).1 "local x = 1" rfl,
   (execute_lua_result_contract luaDemoSession).2.1 rfl,
   (execute_lua_result_contract luaDemoSession).2.2 "return ((" _ rfl⟩

/-- Claim C6: with `$NVIM` unset or empty the module raises at startup and
the serve loop is never reached (the trace is empty: not even a connection
is attempted); with `$NVIM` set to a non-empty path, startup proceeds — the
first thing the process does is attempt the connection to that path. -/
theorem missing_nvim_env_fatal (connect : String → NvimSession)
    (fileAbs : String) (argv : List String) :
    runProgram none connect fileAbs argv = (.startupError nvimUnsetMsg, [])
    ∧ runProgram (some "") connect fileAbs argv
      = (.startupError nvimUnsetMsg, [])
    ∧ (∀ path, path ≠ "" →
      (runProgram (some path) connect fileAbs argv).2.head?
        = some (.connectAttempt path)) := by
  refine ⟨rfl, rfl, fun path hp => ?_⟩
  simp only [runProgram, moduleImport]
  rw [if_neg hp]
  cases (connect path).command ("luafile " ++ pluginPath fileAbs) with
  | some f => rfl
  | none => cases hv : versionRequested argv <;> simp [hv]

/-- Witness for `missing_nvim_env_fatal` at concrete inputs. -/
theorem missing_nvim_env_fatal_witness :
    runProgram none (fun _ => happySession) "/repo/src/nvim_mcp/server.py" []
      = (.startupError nvimUnsetMsg, [])
    ∧ (runProgram (some "/tmp/nvim.sock") (fun _ => happySession)
        "/repo/src/nvim_mcp/server.py" []).2.head?
      = some (.connectAttempt "/tmp/nvim.sock") :=
  ⟨(missing_nvim_env_fatal (fun _ => happySession)
      "/repo/src/nvim_mcp/server.py" []).1,
   (missing_nvim_env_fatal (fun _ => happySession)
      "/repo/src/nvim_mcp/server.py" []).2.2 "/tmp/nvim.sock" (by decide)⟩

/-- Claim C7: an empty `relative_path` on the diagnostics and symbol tools
is forwarded unchanged as the argument of the remote extension call —
whatever the session does, the recorded remote call carries the empty
string verbatim — and on success the handler passes the remote value back
without substituting or rejecting anything. -/
theorem empty_relative_path_forwarded (vim : NvimSession) (pat : String)
    (d : Int) :
    (dispatch vim (.getDiagnostics "")).2
      = [⟨"NvimMcpServer.get_diagnostics", [.vstr ""]⟩]
    ∧ (dispatch vim (.findSymbol pat "" d)).2
      = [⟨"NvimMcpServer.find_symbol", [.vstr pat, .vstr "", .vint d]⟩]
    ∧ (∀ v, vim.luaFn "get_diagnostics" [.vstr ""] = .ok v →
      (dispatch vim (.getDiagnostics "")).1 = .rraw v)
    ∧ (∀ v, vim.luaFn "find_symbol" [.vstr pat, .vstr "", .vint d] = .ok v →
      (dispatch vim (.findSymbol pat "" d)).1 = .rraw v) := by
  refine ⟨?_, ?_, fun v h => ?_, fun v h => ?_⟩
  · cases h : vim.luaFn "get_diagnostics" [.vstr ""] <;>
      simp [dispatch, get_diagnostics, h]
  · cases h : vim.luaFn "find_symbol" [.vstr pat, .vstr "", .vint d] <;>
      simp [dispatch, find_symbol, rawTool, h]
  · simp [dispatch, get_diagnostics, h]
  · simp [dispatch, find_symbol, rawTool, h]

/-- Witness for `empty_relative_path_forwarded` at a concrete session. -/
theorem empty_relative_path_forwarded_witness :
    (dispatch happySession (.getDiagnostics "")).2
      = [⟨"NvimMcpServer.get_diagnostics", [.vstr ""]⟩]
    ∧ (dispatch happySession (.getDiagnostics "")).1 = .rraw .vnil :=
  ⟨(empty_relative_path_forwarded happySession "x" 0).1,
   (empty_relative_path_forwarded happySession "x" 0).2.2.1 .vnil rfl⟩

/-- Claim C8: all tool handlers read the one module-level `vim` global and
never rebind it — dispatch leaves the module state (hence the Session
instance) unchanged, so two sequential invocations of any two tools see the
same Session with no reconnect in between, and the second invocation's
result is exactly what it would have been had the first (possibly faulting)
invocation never happened. -/
theorem session_shared_and_unaffected (st : ServerState) (c1 c2 : ToolCall) :
    (dispatchSt st c1).2 = st
    ∧ ((dispatchSt st c1).2).vim = st.vim
    ∧ (dispatchSt ((dispatchSt st c1).2) c2).1 = (dispatchSt st c2).1 :=
  ⟨rfl, rfl, rfl⟩

/-- Claim C9, counterexample: neither `get_symbols_overview` nor
`find_symbol` has any `includeExternal` (or `include_external`) parameter
in its signature, so no such argument exists to default. -/
theorem no_includeExternal_param :
    (get_symbols_overview_params.map (fun p => p.pname)).contains
        "includeExternal" = false
    ∧ (find_symbol_params.map (fun p => p.pname)).contains
        "includeExternal" = false
    ∧ (get_symbols_overview_params.map (fun p => p.pname)).contains
        "include_external" = false
    ∧ (find_symbol_params.map (fun p => p.pname)).contains
        "include_external" = false := by
  decide

/-- Claim C9 (amended): on both symbol tools the optional `depth` argument
defaults to 0 (top-level symbols only), and `find_symbol`'s optional
`relative_path` defaults to `""`; no `includeExternal` argument exists. -/
theorem depth_defaults_to_zero :
    paramDefault get_symbols_overview_params "depth" = some (.dint 0)
    ∧ paramDefault find_symbol_params "depth" = some (.dint 0)
    ∧ paramDefault find_symbol_params "relative_path" = some (.dstr "")
    ∧ paramDefault get_symbols_overview_params "includeExternal" = none
    ∧ paramDefault find_symbol_params "includeExternal" = none := by
  decide

/-- Claim C10: whenever `vim.api.exec2` succeeds with a falsy result, the
`execute_vimscript` tool returns exactly the empty string `""` — distinct
from the Lua tool's `"nil"` sentinel and from every normalized error
string. -/
theorem execute_vimscript_falsy_empty_string (vim : NvimSession)
    (code : String) (r : NvimValue) (hok : vim.api_exec2 code = .ok r)
    (hfalsy : pyTruthy r = false) :
    (dispatch vim (.executeVimscript code)).1 = .rstr ""
    ∧ "" ≠ "nil"
    ∧ ∀ f : RemoteFault, "" ≠ fmtError f := by
  refine ⟨?_, by decide, fmtError_ne_empty⟩
  simp [dispatch, execute_vimscript, hok, hfalsy]

/-- Witness for `execute_vimscript_falsy_empty_string` at a concrete
session whose `exec2` yields `None`. -/
theorem execute_vimscript_falsy_empty_string_witness :
    (dispatch happySession (.executeVimscript "echo 1")).1 = .rstr ""
    ∧ "" ≠ "nil"
    ∧ ∀ f : RemoteFault, "" ≠ fmtError f :=
  execute_vimscript_falsy_empty_string happySession "echo 1" .vnil rfl rfl

end NvimMcp
